import Mathlib

/-!
Verification of `pydpiper/pipeline_executor.py`.

Shallow embedding of the executor's data model and operations.  Python
floats (memory amounts, wallclock times) are modelled by `ℚ`; Python ints
by `ℤ`; Python `None` by `Option.none`.  Stateful methods of
`pipelineExecutor` become pure functions on an explicit state record, and
side-effecting calls (RPC, pool operations) are recorded in event traces.
-/

namespace PipelineExecutor

/-- A `ChildProcess` record as kept in `runningChildren`: stage id, the
readiness of its result handle (a snapshot of `result.ready()`), and the
reserved memory and processor counts. -/
structure ChildProcess where
  stage : ℤ
  ready : Bool
  mem : ℚ
  procs : ℤ
deriving DecidableEq, Repr

/-- `pipelineExecutor.canRun`: `stageMem <= self.mem - runningMem and
stageProcs <= self.procs - runningProcs`.  `memTotal` is `self.mem`,
`procsTotal` is `self.procs`. -/
def canRun (memTotal : ℚ) (procsTotal : ℤ) (stageMem : ℚ) (stageProcs : ℤ)
    (runningMem : ℚ) (runningProcs : ℤ) : Bool :=
  decide (stageMem ≤ memTotal - runningMem) &&
    decide (stageProcs ≤ procsTotal - runningProcs)

/-- Python list-iterator semantics of the loop in
`pipelineExecutor.free_resources`: the iterator keeps an integer cursor
`i`; `next` yields `cs[i]` and advances the cursor.  When the body removes
the yielded element (`self.runningChildren.remove(child)` removes that
very object, i.e. the element at position `i`), the list shrinks but the
cursor still advances, so the element that followed the removed one is
skipped. -/
def freeLoop (cs : List ChildProcess) (i : ℕ) (mem : ℚ) (procs : ℤ) :
    List ChildProcess × ℚ × ℤ :=
  if h : i < cs.length then
    let c := cs.get ⟨i, h⟩
    if c.ready then
      freeLoop (cs.eraseIdx i) (i + 1) (mem - c.mem) (procs - c.procs)
    else
      freeLoop cs (i + 1) mem procs
  else
    (cs, mem, procs)
termination_by cs.length - i
decreasing_by
· have hl := List.length_eraseIdx_add_one h
  omega
· omega

/-- `pipelineExecutor.free_resources`: sweep `runningChildren`, and for
each child whose result is ready subtract its reserved memory and
processors from `runningMem` and `runningProcs` and remove it from the
list. -/
def free_resources (runningChildren : List ChildProcess) (runningMem : ℚ)
    (runningProcs : ℤ) : List ChildProcess × ℚ × ℤ :=
  freeLoop runningChildren 0 runningMem runningProcs

/-- `pipelineExecutor.is_seppuku_time`: if `time_to_seppuku` is not `None`
and `time_to_seppuku * 60 < idle_time`, return `True`, else `False`.
`time_to_seppuku` is in minutes, `idle_time` in seconds. -/
def is_seppuku_time (time_to_seppuku : Option ℤ) (idle_time : ℚ) : Bool :=
  match time_to_seppuku with
  | none => false
  | some t => decide ((t * 60 : ℚ) < idle_time)

/-- `pipelineExecutor.is_time_to_drain`: if `time_to_accept_jobs` is not
`None`, compute `divmod(current_time - connection_time, 60)` (whose first
component is the floor of the elapsed seconds divided by 60) and return
`True` iff `time_to_accept_jobs < minutes_so_far`. -/
def is_time_to_drain (time_to_accept_jobs : Option ℤ) (current_time : ℚ)
    (connection_time : ℚ) : Bool :=
  match time_to_accept_jobs with
  | none => false
  | some limit =>
    let minutes_so_far : ℤ := ⌊(current_time - connection_time) / 60⌋
    decide (limit < minutes_so_far)

/-- The default of the `--time-to-seppuku` option: `type=int, default=1`
(minutes). -/
def time_to_seppuku_default : Option ℤ := some 1

/-- The outcome report a stage runner sends to the server about a stage. -/
inductive StageReport where
  | setStageFinished
  | setStageFailed
deriving DecidableEq, Repr

/-- `pipelineExecutor.notifyStageTerminated(i, returncode=None)`: report
`setStageFinished` when `returncode == 0`, otherwise `setStageFailed`
(a `None` returncode is also considered a failure). -/
def notifyStageTerminated (returncode : Option ℤ) : StageReport :=
  if returncode = some 0 then StageReport.setStageFinished
  else StageReport.setStageFailed

/-- How the execution attempt of a stage inside `runStage` ends: either an
exception was raised in the spawn/IO block (opening the logfile, spawning
the subprocess, waiting on it), or the child was waited on and produced a
return code. -/
inductive StageOutcome where
  | spawnOrIOError
  | completed (returncode : ℤ)
deriving DecidableEq, Repr

/-- The report sent by `runStage` for a stage: the `except` branch calls
`client.notifyStageTerminated(i)` (no return code), the `else` branch
calls `client.notifyStageTerminated(i, ret)`. -/
def runStageReport (outcome : StageOutcome) : StageReport :=
  match outcome with
  | StageOutcome.spawnOrIOError => notifyStageTerminated none
  | StageOutcome.completed ret => notifyStageTerminated (some ret)

/-- Observable side effects of the shutdown/heartbeat paths, in program
order. -/
inductive Event where
  | unsetRegisteredFlag
  | rpcUnregisterClient
  | rpcUpdateTimestamp
  | poolClose
  | poolJoin
deriving DecidableEq, Repr

/-- `pipelineExecutor.unregister_with_server`: if the
`registered_with_server` flag is set, first unset it, then issue the
`unregisterClient` RPC.  Returns the event trace and the final value of
the flag. -/
def unregister_with_server (registered : Bool) : List Event × Bool :=
  if registered then
    ([Event.unsetRegisteredFlag, Event.rpcUnregisterClient], false)
  else
    ([], registered)

/-- One test-and-act step of `pipelineExecutor.heartbeat`: the loop body
runs (calling `updateClientTimestamp`) only while the
`registered_with_server` flag is still set. -/
def heartbeatAttempt (registered : Bool) : List Event :=
  if registered then [Event.rpcUpdateTimestamp] else []

/-- The executor state read by `completeAndExitChildren`:
`runningChildren` (stages submitted to the pool), the PIDs of child
commands that have actually been spawned, and the registration flag. -/
structure TeardownState where
  runningChildren : List ChildProcess
  current_running_job_pids : List ℕ
  registered : Bool
deriving DecidableEq, Repr

/-- `pipelineExecutor.completeAndExitChildren`: if
`len(self.current_running_job_pids) > 0`, close and join the pool, then
unregister; otherwise unregister straight away. -/
def completeAndExitChildren (s : TeardownState) : List Event × Bool :=
  if s.current_running_job_pids.length > 0 then
    let r := unregister_with_server s.registered
    (Event.poolClose :: Event.poolJoin :: r.1, r.2)
  else
    unregister_with_server s.registered

/-- Python truthiness of an optional float: `None` and `0.0` are falsy,
every other float is truthy (used for `and self.prev_time` in
`pipelineExecutor.idle`). -/
def pyTruthy (x : Option ℚ) : Bool :=
  match x with
  | none => false
  | some v => decide (v ≠ 0)

/-- The fields of `pipelineExecutor` that `mainFn` reads and writes. -/
structure ExecState where
  time_to_seppuku : Option ℤ
  time_to_accept_jobs : Option ℤ
  mem : ℚ
  procs : ℤ
  idle_time : ℚ
  prev_time : Option ℚ
  current_time : Option ℚ
  connection_time_with_server : ℚ
  runningMem : ℚ
  runningProcs : ℤ
  runningChildren : List ChildProcess
deriving DecidableEq, Repr

/-- `pipelineExecutor.idle`: `self.runningMem == 0 and
self.runningProcs == 0 and self.prev_time` (the last conjunct is Python
truthiness of the previous timestamp). -/
def idle (s : ExecState) : Bool :=
  decide (s.runningMem = 0) && decide (s.runningProcs = 0) &&
    pyTruthy s.prev_time

/-- A Python exception escaping `mainFn`: the `TypeError` raised by
`None * 60` in the idle-logging call, or the `Exception` raised on an
unrecognized server command. -/
inductive PyError where
  | typeError
  | invalidCmdException
deriving DecidableEq, Repr

/-- The verb (and stage metadata, fetched by the subsequent
`getStageMem`/`getStageProcs` RPCs) the server answers to `getCommand`. -/
inductive ServerCmd where
  | shutdown_normally
  | wait
  | run_stage (i : ℤ) (stageMem : ℚ) (stageProcs : ℤ)
  | invalid
deriving DecidableEq, Repr

/-- One iteration of `pipelineExecutor.mainFn`, parametrized by the
current wallclock reading `now` and the server's answer `cmd` to
`getCommand`.  Returns the continue/stop flag and the updated state, or
the Python exception that escapes the iteration.  It follows the source
order: advance the clock tick, `free_resources`, the idle block (whose
`logger.debug` call evaluates `self.time_to_seppuku * 60`, a `TypeError`
when `time_to_seppuku` is `None`), the seppuku check, the drain check,
then the dispatch on the server verb. -/
def mainFn (s₀ : ExecState) (now : ℚ) (cmd : ServerCmd) :
    Except PyError (Bool × ExecState) :=
  let s₁ := { s₀ with prev_time := s₀.current_time, current_time := some now }
  let fr := free_resources s₁.runningChildren s₁.runningMem s₁.runningProcs
  let s₂ := { s₁ with runningChildren := fr.1, runningMem := fr.2.1,
                      runningProcs := fr.2.2 }
  let idleStep : Except PyError ExecState :=
    if idle s₂ then
      let s₃ := { s₂ with
        idle_time := s₂.idle_time + (now - s₂.prev_time.getD 0) }
      match s₃.time_to_seppuku with
      | none => Except.error PyError.typeError
      | some _ => Except.ok s₃
    else Except.ok s₂
  match idleStep with
  | Except.error e => Except.error e
  | Except.ok s₃ =>
    if is_seppuku_time s₃.time_to_seppuku s₃.idle_time then
      Except.ok (false, s₃)
    else if is_time_to_drain s₃.time_to_accept_jobs now
        s₃.connection_time_with_server then
      Except.ok (false, s₃)
    else
      match cmd with
      | ServerCmd.shutdown_normally => Except.ok (false, s₃)
      | ServerCmd.wait => Except.ok (true, s₃)
      | ServerCmd.run_stage i stageMem stageProcs =>
        Except.ok (true, { s₃ with
          idle_time := 0,
          runningMem := s₃.runningMem + stageMem,
          runningProcs := s₃.runningProcs + stageProcs,
          runningChildren :=
            s₃.runningChildren ++ [⟨i, false, stageMem, stageProcs⟩] })
      | ServerCmd.invalid => Except.error PyError.invalidCmdException

/-- `noExecSpecified(numExec)`: when `numExec < 0` it prints the usage
message and calls `sys.exit()` — which raises `SystemExit(None)`, i.e.
process exit status `0`.  `some c` models exiting with status `c`,
`none` models returning normally. -/
def noExecSpecifiedExit (numExec : ℤ) : Option ℕ :=
  if numExec < 0 then some 0 else none

/-- How the executor main loop inside `launchExecutor` ends. -/
inductive LoopOutcome where
  | graceful
  | interrupt
  | exception
deriving DecidableEq, Repr

/-- The exit behaviour of `launchExecutor`'s try/except/else: the
`KeyboardInterrupt` handler calls `sys.exit(0)`, the `Exception` handler
calls `sys.exit(0)`, and the `else` (graceful) branch returns normally
(`none`), after which the process terminates with status `0`. -/
def launchExecutorExit (outcome : LoopOutcome) : Option ℕ :=
  match outcome with
  | LoopOutcome.interrupt => some 0
  | LoopOutcome.exception => some 0
  | LoopOutcome.graceful => none

/-- The `__main__` block, from option parsing to process exit: first
`noExecSpecified(options.num_exec)` (which may exit before any server
discovery is attempted), then launching executors, whose loop outcome
determines the exit path.  Returns the process exit status, whether the
usage message was printed, and whether server discovery was reached. -/
def mainProgram (numExec : ℤ) (outcome : LoopOutcome) : ℕ × Bool × Bool :=
  match noExecSpecifiedExit numExec with
  | some c => (c, true, false)
  | none => ((launchExecutorExit outcome).getD 0, false, true)

/-- Claim C1: admission is exactly the ledger inequality — `canRun` is
true iff `stageMem ≤ memTotal − runningMem` and
`stageProcs ≤ procsTotal − runningProcs`; a stage whose memory equals the
free margin is admissible (given its processors fit), and one whose
memory strictly exceeds it is not. -/
theorem canRun_ledger_inequality (memTotal stageMem runningMem : ℚ)
    (procsTotal stageProcs runningProcs : ℤ) :
    (canRun memTotal procsTotal stageMem stageProcs runningMem runningProcs
        = true ↔
      stageMem ≤ memTotal - runningMem ∧
        stageProcs ≤ procsTotal - runningProcs) ∧
    (stageProcs ≤ procsTotal - runningProcs →
      canRun memTotal procsTotal (memTotal - runningMem) stageProcs
        runningMem runningProcs = true) ∧
    (memTotal - runningMem < stageMem →
      canRun memTotal procsTotal stageMem stageProcs runningMem runningProcs
        = false) := by
  refine ⟨by simp [canRun], fun h => by simp [canRun, h], fun h => ?_⟩
  simp [canRun, not_le.mpr h]

/-- Witness for `canRun_ledger_inequality` at `memTotal = 6`,
`procsTotal = 2`, `runningMem = 2`, `runningProcs = 1`: a stage of memory
`6 − 2` is admissible and one of memory `5` is not. -/
theorem canRun_ledger_inequality_witness :
    canRun 6 2 (6 - 2) 1 2 1 = true ∧ canRun 6 2 5 1 2 1 = false :=
  ⟨(canRun_ledger_inequality 6 5 2 2 1 1).2.1 (by decide),
   (canRun_ledger_inequality 6 5 2 2 1 1).2.2 (by norm_num)⟩

/-- Claim C2 (code bug): with two ready children, a single call to
`free_resources` removes only the first — removing an element of the list
being iterated makes the Python iterator skip the following element — so
the second ready child remains and its reservation is not released. -/
theorem free_resources_skips_ready_child :
    free_resources [⟨1, true, 1, 1⟩, ⟨2, true, 1, 1⟩] 2 2 =
      ([⟨2, true, 1, 1⟩], 1, 1) ∧
    (ChildProcess.ready ⟨2, true, 1, 1⟩ = true) := by
  refine ⟨?_, rfl⟩
  simp [free_resources, freeLoop]
  norm_num

/-- Claim C3: a stage outcome is reported as `setStageFinished` iff the
child's exit code is exactly `0`; a non-zero exit code, a `None` return
code, and a spawn/IO exception all produce `setStageFailed`. -/
theorem runStage_report_finished_iff_zero (outcome : StageOutcome) (r : ℤ) :
    (runStageReport outcome = StageReport.setStageFinished ↔
      outcome = StageOutcome.completed 0) ∧
    (runStageReport outcome = StageReport.setStageFailed ↔
      outcome ≠ StageOutcome.completed 0) ∧
    notifyStageTerminated none = StageReport.setStageFailed ∧
    (notifyStageTerminated (some r) = StageReport.setStageFinished ↔
      r = 0) := by
  rcases outcome with _ | ret
  · by_cases hr : r = 0 <;> simp [runStageReport, notifyStageTerminated, hr]
  · by_cases hr : r = 0 <;> by_cases hret : ret = 0 <;>
      simp [runStageReport, notifyStageTerminated, hr, hret]

/-- With a configured limit, `is_time_to_drain` triggers exactly when the
elapsed seconds reach `60 · (limit + 1)`: the comparison
`limit < ⌊elapsed / 60⌋` between integers is equivalent to
`60 · (limit + 1) ≤ elapsed` over `ℚ`. -/
theorem drain_some_iff (limit : ℤ) (now conn : ℚ) :
    is_time_to_drain (some limit) now conn = true ↔
      (60 * (limit + 1) : ℚ) ≤ now - conn := by
  have hfloor : limit < ⌊(now - conn) / 60⌋ ↔
      (60 * (limit + 1) : ℚ) ≤ now - conn := by
    rw [Int.lt_iff_add_one_le, Int.le_floor,
      le_div_iff₀ (by norm_num : (0 : ℚ) < 60)]
    push_cast
    constructor <;> intro h <;> linarith
  rw [← hfloor]
  simp [is_time_to_drain]

/-- Claim C4 counterexample: with `time_to_accept_jobs = 2` (minutes) and
`now − connectedAt = 125` seconds the elapsed time exceeds the limit
(`2 · 60 < 125`), yet `is_time_to_drain` does not trigger, because the
code compares the limit against the floored whole minutes (`2 < 2` is
false). -/
theorem drain_not_triggered_within_minute :
    is_time_to_drain (some 2) 125 0 = false ∧ (2 * 60 : ℚ) < 125 - 0 := by
  constructor
  · rw [Bool.eq_false_iff, Ne, drain_some_iff]
    norm_num
  · norm_num

/-- Claim C4 (amended): with a configured limit, an iteration returns
stop exactly when the floored whole minutes elapsed strictly exceed the
limit — equivalently when `now − connectedAt ≥ 60 · (limit + 1)`
seconds — and `time_to_accept_jobs = None` disables drain entirely. -/
theorem is_time_to_drain_characterization (limit : ℤ) (now conn : ℚ) :
    (is_time_to_drain (some limit) now conn = true ↔
      limit < ⌊(now - conn) / 60⌋) ∧
    (is_time_to_drain (some limit) now conn = true ↔
      (60 * (limit + 1) : ℚ) ≤ now - conn) ∧
    is_time_to_drain none now conn = false := by
  exact ⟨by simp [is_time_to_drain], drain_some_iff limit now conn,
    by simp [is_time_to_drain]⟩

/-- Claim C10: `--time-to-seppuku` defaults to `1` (minute), not `None`,
so in the default configuration seppuku is enabled and triggers exactly
when the contiguous idle time strictly exceeds `60` seconds. -/
theorem default_time_to_seppuku_enabled :
    time_to_seppuku_default = some 1 ∧
    is_seppuku_time time_to_seppuku_default 61 = true ∧
    (∀ idleSeconds : ℚ,
      is_seppuku_time time_to_seppuku_default idleSeconds = true ↔
        60 < idleSeconds) := by
  refine ⟨rfl, ?_, fun idleSeconds => ?_⟩ <;>
    norm_num [is_seppuku_time, time_to_seppuku_default]

/-- An executor state with `time_to_seppuku = None`, no running work and
a previous tick recorded: the second (or any later) iteration of an idle
executor configured without an idle limit. -/
def seppukuNoneIdleState : ExecState where
  time_to_seppuku := none
  time_to_accept_jobs := none
  mem := 6
  procs := 1
  idle_time := 0
  prev_time := some 100
  current_time := some 100
  connection_time_with_server := 0
  runningMem := 0
  runningProcs := 0
  runningChildren := []

/-- Claim C5 (code bug): with `time_to_seppuku = None` the main loop does
not tolerate idleness — on the first idle iteration the idle-logging call
evaluates `self.time_to_seppuku * 60`, i.e. `None * 60`, raising a
`TypeError` that aborts the loop, even though `is_seppuku_time` itself
would have returned `False`. -/
theorem mainFn_seppuku_none_idle_raises :
    mainFn seppukuNoneIdleState 105 ServerCmd.wait =
      Except.error PyError.typeError ∧
    is_seppuku_time seppukuNoneIdleState.time_to_seppuku 1000000 = false := by
  constructor
  · simp [mainFn, seppukuNoneIdleState, free_resources, freeLoop, idle,
      pyTruthy]
  · simp [seppukuNoneIdleState, is_seppuku_time]

/-- Claim C6 counterexample: with `--num-executors` unspecified
(`num_exec = -1`) the program prints the usage message and exits with
status `0` — not non-zero — before attempting discovery; and a fatal
exception in the main loop also exits with status `0` (`sys.exit(0)` in
the `except Exception` handler). -/
theorem mainProgram_exits_zero_cex :
    mainProgram (-1) LoopOutcome.graceful = (0, true, false) ∧
    mainProgram 1 LoopOutcome.exception = (0, false, true) := by decide

/-- Claim C6 (amended): the process exit status is `0` in every case —
configuration error (unspecified `--num-executors` prints the usage
message and exits `0` without attempting discovery, since `sys.exit()`
raises `SystemExit(None)`), fatal exception in the main loop
(`sys.exit(0)`), handled interrupt (`sys.exit(0)`), and graceful
completion. -/
theorem mainProgram_exit_behaviour (numExec : ℤ) (outcome : LoopOutcome) :
    (mainProgram numExec outcome).1 = 0 ∧
    (numExec < 0 → mainProgram numExec outcome = (0, true, false)) ∧
    (0 ≤ numExec → (mainProgram numExec outcome).2.1 = false ∧
      (mainProgram numExec outcome).2.2 = true) := by
  rcases lt_or_le numExec 0 with h | h <;>
    cases outcome <;>
      simp [mainProgram, noExecSpecifiedExit, launchExecutorExit, h,
        not_lt.mpr h]

/-- Witness for `mainProgram_exit_behaviour`: at `num_exec = -1` the
program exits `0` after the usage message without discovery, and at
`num_exec = 3` no usage message is printed and discovery is reached. -/
theorem mainProgram_exit_behaviour_witness :
    mainProgram (-1) LoopOutcome.interrupt = (0, true, false) ∧
    ((mainProgram 3 LoopOutcome.interrupt).2.1 = false ∧
      (mainProgram 3 LoopOutcome.interrupt).2.2 = true) :=
  ⟨(mainProgram_exit_behaviour (-1) LoopOutcome.interrupt).2.1 (by decide),
   (mainProgram_exit_behaviour 3 LoopOutcome.interrupt).2.2 (by decide)⟩

/-- Claim C7: in the execution of `unregister_with_server` with the
`registered` flag set, the flag is unset strictly before the
`unregisterClient` RPC is issued, the flag ends up `false`, and a
heartbeat iteration that reads the flag after the unset makes no server
contact. -/
theorem unregister_unsets_flag_before_rpc :
    (unregister_with_server true).1 =
      [Event.unsetRegisteredFlag, Event.rpcUnregisterClient] ∧
    (unregister_with_server true).1.indexOf Event.unsetRegisteredFlag <
      (unregister_with_server true).1.indexOf Event.rpcUnregisterClient ∧
    (unregister_with_server true).2 = false ∧
    heartbeatAttempt (unregister_with_server true).2 = [] := by decide

/-- A teardown state in which a stage is in `runningChildren` (submitted
to the pool) but its child process has not yet been spawned, so
`current_running_job_pids` is still empty. -/
def submittedNotSpawnedState : TeardownState :=
  ⟨[⟨5, false, 1, 1⟩], [], true⟩

/-- Claim C8 counterexample: on normal exit with a stage submitted to
the pool but its child process not yet spawned
(`current_running_job_pids = []`), `completeAndExitChildren` skips the
pool close/join entirely and calls `unregisterClient` immediately — it
does not wait for the outstanding child. -/
theorem completeAndExit_unspawned_child_cex :
    submittedNotSpawnedState.runningChildren ≠ [] ∧
    (completeAndExitChildren submittedNotSpawnedState).1 =
      [Event.unsetRegisteredFlag, Event.rpcUnregisterClient] ∧
    Event.poolJoin ∉ (completeAndExitChildren submittedNotSpawnedState).1 := by
  refine ⟨by decide, by decide, by decide⟩

/-- Claim C8 (amended): `completeAndExitChildren` waits for the pool
(close then join) before `unregisterClient` exactly when at least one
child PID is live; when `current_running_job_pids` is empty — including
the state with a stage submitted but not yet spawned — no pool join
happens and `unregisterClient` is called immediately. -/
theorem completeAndExit_join_ordering (s : TeardownState) :
    (s.current_running_job_pids ≠ [] →
      Event.poolJoin ∈ (completeAndExitChildren s).1 ∧
      (completeAndExitChildren s).1.indexOf Event.poolJoin <
        (completeAndExitChildren s).1.indexOf Event.rpcUnregisterClient) ∧
    (s.current_running_job_pids = [] →
      Event.poolJoin ∉ (completeAndExitChildren s).1) := by
  obtain ⟨ch, pids, reg⟩ := s
  rcases pids with _ | ⟨p, ps⟩ <;> cases reg <;>
    simp [completeAndExitChildren, unregister_with_server]

/-- Witness for `completeAndExit_join_ordering`: with a live PID the
pool join occurs, and with no live PIDs it does not. -/
theorem completeAndExit_join_ordering_witness :
    Event.poolJoin ∈ (completeAndExitChildren ⟨[], [7], true⟩).1 ∧
    Event.poolJoin ∉ (completeAndExitChildren ⟨[], [], true⟩).1 :=
  ⟨((completeAndExit_join_ordering ⟨[], [7], true⟩).1 (by decide)).1,
   (completeAndExit_join_ordering ⟨[], [], true⟩).2 rfl⟩

/-- A freshly connected executor state: no prior tick, no running work. -/
def zeroChildState0 : ExecState where
  time_to_seppuku := some 1000
  time_to_accept_jobs := none
  mem := 6
  procs := 2
  idle_time := 0
  prev_time := none
  current_time := none
  connection_time_with_server := 0
  runningMem := 0
  runningProcs := 0
  runningChildren := []

/-- The state after the first iteration dispatched stage `5` with a
reservation of zero memory and zero processors. -/
def zeroChildState1 : ExecState where
  time_to_seppuku := some 1000
  time_to_accept_jobs := none
  mem := 6
  procs := 2
  idle_time := 0
  prev_time := none
  current_time := some 100
  connection_time_with_server := 0
  runningMem := 0
  runningProcs := 0
  runningChildren := [⟨5, false, 0, 0⟩]

/-- The state after the second iteration: the zero-reservation child is
still running, yet five seconds of idle time have been accrued. -/
def zeroChildState2 : ExecState where
  time_to_seppuku := some 1000
  time_to_accept_jobs := none
  mem := 6
  procs := 2
  idle_time := 5
  prev_time := some 100
  current_time := some 105
  connection_time_with_server := 0
  runningMem := 0
  runningProcs := 0
  runningChildren := [⟨5, false, 0, 0⟩]

/-- Claim C9 counterexample: dispatching a stage whose reservation is
`mem = 0, procs = 0` and then iterating once more while it is still
running reaches a main-loop boundary with `idle_time > 0` and
`runningChildren` non-empty — `idle()` looks only at the resource
counters, so a zero-reservation child accrues idle time while it runs. -/
theorem idle_accrues_with_zero_resource_child_cex :
    mainFn zeroChildState0 100 (ServerCmd.run_stage 5 0 0) =
      Except.ok (true, zeroChildState1) ∧
    mainFn zeroChildState1 105 ServerCmd.wait =
      Except.ok (true, zeroChildState2) ∧
    0 < zeroChildState2.idle_time ∧
    zeroChildState2.runningChildren ≠ [] := by
  refine ⟨?_, ?_, by decide, by decide⟩
  · simp [mainFn, zeroChildState0, zeroChildState1, free_resources,
      freeLoop, idle, pyTruthy, is_seppuku_time, is_time_to_drain]
  · simp [mainFn, zeroChildState1, zeroChildState2, free_resources,
      freeLoop, idle, pyTruthy, is_seppuku_time, is_time_to_drain]
    norm_num

/-- Claim C9 (amended): the guard of idle accrual is
`runningMem = 0 ∧ runningProcs = 0` (plus a recorded previous tick), so
whenever the resource ledger is consistent with the running children and
every running child reserves strictly positive memory or strictly
positive processors, an idle boundary implies `runningChildren` is
empty; a child reserving zero of both breaks the implication (see the
counterexample). -/
theorem idle_implies_running_empty (s : ExecState)
    (hm : s.runningMem = (s.runningChildren.map ChildProcess.mem).sum)
    (hp : s.runningProcs = (s.runningChildren.map ChildProcess.procs).sum)
    (hpos : ∀ c ∈ s.runningChildren,
      (0 < c.mem ∨ 0 < c.procs) ∧ 0 ≤ c.mem ∧ 0 ≤ c.procs)
    (hidle : idle s = true) :
    s.runningChildren = [] := by
  have hzero : s.runningMem = 0 ∧ s.runningProcs = 0 := by
    simp [idle, pyTruthy] at hidle
    exact ⟨hidle.1.1, hidle.1.2⟩
  rcases hch : s.runningChildren with _ | ⟨c, rest⟩
  · rfl
  exfalso
  rw [hch] at hm hp hpos
  have hcmem : 0 ≤ c.mem := (hpos c (List.mem_cons_self c rest)).2.1
  have hcprocs : 0 ≤ c.procs := (hpos c (List.mem_cons_self c rest)).2.2
  have hrestmem : 0 ≤ (rest.map ChildProcess.mem).sum := by
    apply List.sum_nonneg
    intro x hx
    simp only [List.mem_map] at hx
    obtain ⟨d, hd, hdx⟩ := hx
    exact hdx ▸ (hpos d (List.mem_cons_of_mem c hd)).2.1
  have hrestprocs : 0 ≤ (rest.map ChildProcess.procs).sum := by
    apply List.sum_nonneg
    intro x hx
    simp only [List.mem_map] at hx
    obtain ⟨d, hd, hdx⟩ := hx
    exact hdx ▸ (hpos d (List.mem_cons_of_mem c hd)).2.2
  have hmem0 : c.mem = 0 := by
    have := hzero.1
    rw [hm] at this
    simp only [List.map_cons, List.sum_cons] at this
    linarith
  have hprocs0 : c.procs = 0 := by
    have := hzero.2
    rw [hp] at this
    simp only [List.map_cons, List.sum_cons] at this
    omega
  rcases (hpos c (List.mem_cons_self c rest)).1 with h | h
  · rw [hmem0] at h
    exact lt_irrefl 0 h
  · rw [hprocs0] at h
    exact lt_irrefl 0 h

/-- An idle boundary state with an empty running set and a consistent
(zero) ledger, to which `idle_implies_running_empty` applies. -/
def idleEmptyState : ExecState where
  time_to_seppuku := some 1
  time_to_accept_jobs := none
  mem := 6
  procs := 2
  idle_time := 3
  prev_time := some 50
  current_time := some 55
  connection_time_with_server := 0
  runningMem := 0
  runningProcs := 0
  runningChildren := []

/-- Witness for `idle_implies_running_empty` at `idleEmptyState`. -/
theorem idle_implies_running_empty_witness :
    idleEmptyState.runningChildren = [] :=
  idle_implies_running_empty idleEmptyState (by simp [idleEmptyState])
    (by simp [idleEmptyState]) (by simp [idleEmptyState]) (by decide)

end PipelineExecutor
